import Mathlib

/-!
Verification of the response framing and assembly engine of a DICT-protocol
client (dictionary_client.py). Byte strings are modelled as `List Char`
(ASCII); the socket is modelled as a script of arrival events, each a delay
(time units until the bytes become readable) and a chunk of bytes.
-/

namespace DictClient

abbrev Bytes := List Char

def crlf : Bytes := ['\r', '\n']

/-- Bool-valued prefix test on byte strings. -/
def bytesStartWith (pat l : Bytes) : Bool :=
  match pat, l with
  | [], _ => true
  | _ :: _, [] => false
  | p :: ps, c :: cs => p == c && bytesStartWith ps cs

/-- Bool-valued substring test: Python `pat in l` on bytes. -/
def containsSub (pat : Bytes) : Bytes → Bool
  | [] => pat == []
  | c :: cs => bytesStartWith pat (c :: cs) || containsSub pat cs

/-- Python `b[-2:] == b"\r\n"`: the last two bytes are CRLF. -/
def endsWithCRLF (b : Bytes) : Bool :=
  b.drop (b.length - 2) == crlf

/-! ## Python `int()` on a byte slice

`_get_status` runs `int(response_bytes[:3])`.  Python's `int` strips ASCII
whitespace, accepts an optional sign, and accepts digit runs with single
interior underscores; anything else raises `ValueError` (modelled as `none`). -/

def isPyWs (c : Char) : Bool :=
  c == ' ' || c == '\t' || c == '\n' || c == '\r' || c.toNat == 11 || c.toNat == 12

def pyStrip (s : Bytes) : Bytes :=
  ((s.dropWhile isPyWs).reverse.dropWhile isPyWs).reverse

/-- A digit run as `int` accepts it: nonempty, starts and ends with a digit,
only digits and underscores, no doubled underscore. -/
def validPyDigits (l : Bytes) : Bool :=
  match l with
  | [] => false
  | c :: _ =>
    c.isDigit &&
    (match l.getLast? with
     | some d => d.isDigit
     | none => false) &&
    l.all (fun x => x.isDigit || x == '_') &&
    !(containsSub ['_', '_'] l)

def digitsVal (l : Bytes) : Nat :=
  l.foldl (fun acc c => if c == '_' then acc else acc * 10 + (c.toNat - 48)) 0

/-- Model of Python `int(bytes)`: `none` is a raised `ValueError`. -/
def pyInt (s : Bytes) : Option Int :=
  match pyStrip s with
  | '+' :: rest => if validPyDigits rest then some (Int.ofNat (digitsVal rest)) else none
  | '-' :: rest => if validPyDigits rest then some (-(Int.ofNat (digitsVal rest))) else none
  | t => if validPyDigits t then some (Int.ofNat (digitsVal t)) else none

/-! ## Status codes -/

namespace DictStatusCode

/-- Modelled from the spec: `status_codes.py` is not in the sources; the spec
gives the "connection accepted" code as 220. -/
def CONNECTION_ACCEPTED : Int := 220

/-- Modelled from the spec: the "ok" code is 250. -/
def OK : Int := 250

/-- Modelled from the spec: the "closing connection" code is 221. -/
def CLOSING_CONNECTION : Int := 221

/-- Modelled from the spec: `status_codes.py` is not in the sources.  Per the
spec, Preliminary codes (the 1yz "about to send multi-line content" family,
e.g. 150, 151) signal that more data must follow; every other code is
Terminal, i.e. the response is complete with the status line. -/
def response_complete (code : Int) : Bool :=
  if 100 ≤ code ∧ code ≤ 199 then false else true

end DictStatusCode

/-! ## The transport script

One `Ev` is one successful poll/read pair the server would honour: after
`delay` time units the socket becomes readable and `recv` yields `chunk`.
`select` is called with a 5-unit timeout; an event whose delay exceeds the
bound, or an exhausted script, is a `select` timeout. -/

structure Ev where
  delay : Nat
  chunk : Bytes
deriving DecidableEq

def perCallTimeout : Nat := 5

def BUF_SIZE : Nat := 4096

inductive RecvError
  /-- "Client timed out expecting server response." -/
  | timeoutNoData
  /-- "Client timed out following preliminary response with status {status}." -/
  | timeoutPreliminary (status : Int)
  /-- Python `ValueError` raised by `int()` inside `_get_status`. -/
  | valueError
deriving DecidableEq

namespace DictionaryClient

/-- `_get_status`: `int(response_bytes[:3])`. -/
def _get_status (b : Bytes) : Option Int :=
  pyInt (b.take 3)

/-- `_response_complete`:
`(b.startswith(b"250") or b"\r\n250" in b) and b[-2:] == b"\r\n"`. -/
def _response_complete (b : Bytes) : Bool :=
  (bytesStartWith ['2', '5', '0'] b || containsSub ('\r' :: '\n' :: ['2', '5', '0']) b)
    && endsWithCRLF b

/-- The `while not self._response_complete(...)` loop of `_recv_all`: wait
(bounded by `perCallTimeout`), read, append, re-check. -/
def recvLoop (status : Int) : Bytes → List Ev → Except RecvError Bytes
  | acc, [] =>
    if _response_complete acc then .ok acc else .error (.timeoutPreliminary status)
  | acc, e :: rest =>
    if _response_complete acc then .ok acc
    else if perCallTimeout < e.delay then .error (.timeoutPreliminary status)
    else recvLoop status (acc ++ e.chunk) rest

/-- `_recv_all`: wait for readiness (5-unit bound), read a first chunk, parse
its status; a Terminal status returns the chunk at once, a Preliminary status
enters the completeness loop. -/
def _recv_all : List Ev → Except RecvError Bytes
  | [] => .error .timeoutNoData
  | e :: rest =>
    if perCallTimeout < e.delay then .error .timeoutNoData
    else
      match _get_status e.chunk with
      | none => .error .valueError
      | some status =>
        if DictStatusCode.response_complete status then .ok e.chunk
        else recvLoop status e.chunk rest

end DictionaryClient

/-! ## Session handshake and disconnect -/

inductive ClientError
  /-- an error propagated out of `_recv_all`. -/
  | recv (e : RecvError)
  /-- a `ValueError` raised while parsing a response's status code. -/
  | malformed
  /-- `raise Exception(response.status_code)` at a handshake checkpoint. -/
  | unexpectedStatus (code : Int)
  /-- the `ConnectionError` raised by `disconnect` on a non-221 reply,
  carrying the offending reply bytes. -/
  | connectionError (raw : Bytes)
deriving DecidableEq

/-- Modelled from the spec: `response.py` is not in the sources; per the spec
every raw reply begins with exactly one 3-digit status code, so a response
object's `status_code` is the integer value of the reply's first 3 bytes. -/
def Response.status_code (raw : Bytes) : Option Int :=
  pyInt (raw.take 3)

namespace DictionaryClient

/-- `_send_client_ident`: send the CLIENT command, read the acknowledgement,
require status `OK`; `identAck` scripts the acknowledgement's arrival. -/
def _send_client_ident (identAck : List Ev) : Except ClientError Unit :=
  match _recv_all identAck with
  | .error e => .error (.recv e)
  | .ok raw =>
    match Response.status_code raw with
    | none => .error .malformed
    | some s =>
      if s ≠ DictStatusCode.OK then .error (.unexpectedStatus s) else .ok ()

/-- `_connect`: read the greeting, require status `CONNECTION_ACCEPTED`,
then run `_send_client_ident`; on success return the greeting (whose parsed
content becomes `server_info`).  Construction reaches Ready exactly when this
returns `.ok`. -/
def _connect (greeting identAck : List Ev) : Except ClientError Bytes :=
  match _recv_all greeting with
  | .error e => .error (.recv e)
  | .ok raw =>
    match Response.status_code raw with
    | none => .error .malformed
    | some s =>
      if s ≠ DictStatusCode.CONNECTION_ACCEPTED then .error (.unexpectedStatus s)
      else
        match _send_client_ident identAck with
        | .error e => .error e
        | .ok _ => .ok raw

/-- `disconnect`: send QUIT, read the reply; a status other than
`CLOSING_CONNECTION` raises `ConnectionError` (and control leaves the method
before `sock.close()`); on 221 the socket is closed.  The `Bool` records
whether `sock.close()` ran. -/
def disconnect (ev : List Ev) : Except ClientError Unit × Bool :=
  match _recv_all ev with
  | .error e => (.error (.recv e), false)
  | .ok raw =>
    match _get_status raw with
    | none => (.error .malformed, false)
    | some s =>
      if s ≠ DictStatusCode.CLOSING_CONNECTION then
        (.error (.connectionError raw), false)
      else (.ok (), true)

end DictionaryClient

/-! ## The lazy read-only descriptors -/

/-- Modelled from the spec: `ServerPropertiesResponse.content` is not in the
sources; per the spec it is a database/strategy name listing, modelled as a
list of names. -/
abbrev Content := List Bytes

/-- Python truthiness of `getattr(obj, private_name, None)`: the `None`
default and an empty listing are falsy. -/
def pyFalsy : Option Content → Bool
  | none => true
  | some c => c.isEmpty

structure GetOutcome where
  value : Content
  cache : Option Content
  requests : Nat
deriving DecidableEq

/-- `Strategies.__get__`: if the cached private attribute is falsy, send the
SHOW STRATEGIES command, parse the reply and store its content; return the
stored value.  `serverContent` is the content the server's reply parses to;
`requests` counts the `sendall` calls this access performs. -/
def Strategies.get (cache : Option Content) (serverContent : Content) : GetOutcome :=
  if pyFalsy cache then ⟨serverContent, some serverContent, 1⟩
  else ⟨cache.getD [], cache, 0⟩

/-- `Databases.__get__`: same body as `Strategies.__get__` with the SHOW
DATABASES command. -/
def Databases.get (cache : Option Content) (serverContent : Content) : GetOutcome :=
  if pyFalsy cache then ⟨serverContent, some serverContent, 1⟩
  else ⟨cache.getD [], cache, 0⟩

/-- Total number of requests sent by a sequence of descriptor accesses;
`replies` scripts the content the server would answer with at each access. -/
def totalRequests (get : Option Content → Content → GetOutcome) :
    Option Content → List Content → Nat
  | _, [] => 0
  | cache, r :: rs =>
    (get cache r).requests + totalRequests get (get cache r).cache rs

/-- The values a sequence of descriptor accesses returns. -/
def accessTrace (get : Option Content → Content → GetOutcome) :
    Option Content → List Content → List Content
  | _, [] => []
  | cache, r :: rs =>
    (get cache r).value :: accessTrace get (get cache r).cache rs

/-! ## The read-only attribute protocol -/

/-- The class attributes of `DictionaryClient` that are `ReadOnlyDescriptor`
data descriptors (`strategies = Strategies()`, `databases = Databases()`). -/
def readOnlyPublicNames : List Bytes := ["strategies".data, "databases".data]

/-- `ReadOnlyDescriptor.__set_name__`: the public name and the derived
private name `_{name}`. -/
def set_name (name : Bytes) : Bytes × Bytes := (name, '_' :: name)

/-- `ReadOnlyDescriptor.raise_read_only`: the AttributeError message
`f"{obj.__class__.__name__}.{self.public_name} is a read-only attribute"`. -/
def raise_read_only (clsName publicName : Bytes) : Bytes :=
  clsName ++ ('.' :: publicName) ++ " is a read-only attribute".data

/-- Python attribute assignment on a `DictionaryClient` instance: a
class-level data descriptor intercepts the write with `__set__` (which calls
`raise_read_only`); any other name writes the instance dict. -/
def setattrClient (α : Type) (dict : List (Bytes × α)) (name : Bytes) (v : α) :
    Except Bytes (List (Bytes × α)) :=
  if readOnlyPublicNames.contains name then
    .error (raise_read_only "DictionaryClient".data name)
  else .ok ((name, v) :: dict)

/-- Python attribute deletion on a `DictionaryClient` instance: a class-level
data descriptor intercepts the delete with `__delete__`. -/
def delattrClient (α : Type) (dict : List (Bytes × α)) (name : Bytes) :
    Except Bytes (List (Bytes × α)) :=
  if readOnlyPublicNames.contains name then
    .error (raise_read_only "DictionaryClient".data name)
  else .ok (dict.filter (fun p => !(p.1 == name)))

/-! ## Spec-side notions used to state the claims -/

/-- Split a byte string on CRLF boundaries. -/
def splitCRLF : Bytes → List Bytes
  | [] => [[]]
  | '\r' :: '\n' :: rest => [] :: splitCRLF rest
  | c :: rest =>
    match splitCRLF rest with
    | [] => [[c]]
    | l :: ls => (c :: l) :: ls

/-- Spec-side: the buffer's tail matches the terminator-line pattern, i.e. the
buffer ends with CRLF and its final CRLF-terminated line starts with the
digits 250. -/
def endsWithTerminatorLine (b : Bytes) : Bool :=
  endsWithCRLF b &&
    (match (splitCRLF (b.take (b.length - 2))).getLast? with
     | some line => bytesStartWith ['2', '5', '0'] line
     | none => false)

/-- Spec-side: the buffer is a single CRLF-terminated line. -/
def isSingleLine (b : Bytes) : Bool :=
  endsWithCRLF b && (splitCRLF b).length == 2

/-- A preliminary reply whose body contains "\r\n250" in its interior but
whose final line is plain body text. -/
def ex1 : Bytes := "150 1 definitions\r\n250 embedded\r\nbody\r\n".data

/-! ## Helper lemmas -/

theorem recvLoop_ok_complete (s : Int) (evs : List Ev) :
    ∀ (acc buf : Bytes), DictionaryClient.recvLoop s acc evs = .ok buf →
      DictionaryClient._response_complete buf = true := by
  induction evs with
  | nil =>
    intro acc buf h
    simp only [DictionaryClient.recvLoop] at h
    by_cases hc : DictionaryClient._response_complete acc = true
    · rw [if_pos hc] at h
      cases h
      exact hc
    · rw [if_neg hc] at h
      cases h
  | cons e rest ih =>
    intro acc buf h
    simp only [DictionaryClient.recvLoop] at h
    by_cases hc : DictionaryClient._response_complete acc = true
    · rw [if_pos hc] at h
      cases h
      exact hc
    · rw [if_neg hc] at h
      by_cases hd : perCallTimeout < e.delay
      · rw [if_pos hd] at h
        cases h
      · rw [if_neg hd] at h
        exact ih _ _ h

theorem response_complete_endsWithCRLF (b : Bytes)
    (h : DictionaryClient._response_complete b = true) : endsWithCRLF b = true := by
  simp only [DictionaryClient._response_complete, Bool.and_eq_true] at h
  exact h.2

/-! ## Claims -/

/-- C1: with the first chunk `ex1`, whose terminator digits "250" occur only
as an interior substring (the final line is "body"), `_recv_all` nonetheless
judges the reply complete and ends assembly, because `_response_complete`
tests `b"\r\n250" in bytes` (substring anywhere) rather than anchoring the
terminator line at the buffer's tail. -/
theorem c1_substring_ends_assembly :
    DictionaryClient._recv_all [⟨0, ex1⟩] = .ok ex1 ∧
    containsSub ('\r' :: '\n' :: ['2', '5', '0']) ex1 = true ∧
    endsWithTerminatorLine ex1 = false := ⟨rfl, rfl, rfl⟩

/-- C2 counterexample: a Terminal-status chunk with no trailing CRLF is
returned by `_recv_all` as-is: the terminal branch returns the first read
without checking the buffer's tail. -/
theorem c2_counterexample :
    DictionaryClient._recv_all [⟨0, "210 stat".data⟩] = .ok "210 stat".data ∧
    endsWithCRLF "210 stat".data = false := ⟨rfl, rfl⟩

/-- C2 (amended): every buffer `_recv_all` returns through the multi-line
(Preliminary-status) loop ends with CRLF, because `_response_complete`
requires the last two bytes to be CRLF; a Terminal-status buffer is instead
returned immediately after the first read with no tail check. -/
theorem c2_preliminary_buffers_end_crlf (e : Ev) (rest : List Ev) (s : Int)
    (buf : Bytes)
    (hst : DictionaryClient._get_status e.chunk = some s)
    (hpre : DictStatusCode.response_complete s = false)
    (h : DictionaryClient._recv_all (e :: rest) = .ok buf) :
    endsWithCRLF buf = true := by
  simp only [DictionaryClient._recv_all] at h
  by_cases hd : perCallTimeout < e.delay
  · rw [if_pos hd] at h
    cases h
  · rw [if_neg hd, hst] at h
    simp only [hpre, Bool.false_eq_true, if_false] at h
    exact response_complete_endsWithCRLF buf (recvLoop_ok_complete s rest e.chunk buf h)

theorem c2_witness :
    DictionaryClient._get_status "150 a\r\n".data = some 150 ∧
    DictStatusCode.response_complete 150 = false ∧
    DictionaryClient._recv_all [⟨0, "150 a\r\n".data⟩, ⟨0, "250 ok\r\n".data⟩]
      = .ok "150 a\r\n250 ok\r\n".data ∧
    endsWithCRLF "150 a\r\n250 ok\r\n".data = true :=
  ⟨rfl, rfl, rfl,
    c2_preliminary_buffers_end_crlf ⟨0, "150 a\r\n".data⟩ [⟨0, "250 ok\r\n".data⟩]
      150 "150 a\r\n250 ok\r\n".data rfl rfl rfl⟩

/-- C3: a Terminal status whose whole single-line CRLF-terminated reply
arrives in the first read is returned unchanged by `_recv_all`, whatever
events follow — in particular no second readiness wait or read happens (the
conclusion holds even when the rest of the script would time out). -/
theorem c3_terminal_single_read (d : Nat) (chunk : Bytes) (rest : List Ev)
    (s : Int)
    (hd : d ≤ perCallTimeout)
    (hst : DictionaryClient._get_status chunk = some s)
    (hterm : DictStatusCode.response_complete s = true)
    (_hline : isSingleLine chunk = true) :
    DictionaryClient._recv_all (⟨d, chunk⟩ :: rest) = .ok chunk := by
  simp only [DictionaryClient._recv_all]
  rw [if_neg (Nat.not_lt.mpr hd), hst]
  simp [hterm]

theorem c3_witness :
    (0 : Nat) ≤ perCallTimeout ∧
    DictionaryClient._get_status "210 status text\r\n".data = some 210 ∧
    DictStatusCode.response_complete 210 = true ∧
    isSingleLine "210 status text\r\n".data = true ∧
    ("210 status text\r\n".data).length = 17 ∧
    DictionaryClient._recv_all [⟨0, "210 status text\r\n".data⟩, ⟨6, []⟩]
      = .ok "210 status text\r\n".data :=
  ⟨Nat.zero_le _, rfl, rfl, rfl, rfl,
    c3_terminal_single_read 0 "210 status text\r\n".data [⟨6, []⟩] 210
      (Nat.zero_le _) rfl rfl rfl⟩

/-- C4 counterexample: at the concrete malformed input b"abc def\r\n" the
code fails with the uncaught Python `ValueError` raised by `int()` inside
`_get_status`, not with a `ProtocolError` — no such error kind exists in the
code; and the first 3 bytes b" 25" of a whitespace-padded reply, which are
not a 3-digit numeric status code, are silently coerced by `_get_status` to
the number 25 instead of being rejected. -/
theorem c4_counterexample :
    DictionaryClient._recv_all [⟨0, "abc def\r\n".data⟩] = .error .valueError ∧
    DictionaryClient._get_status " 25 ok\r\n".data = some 25 := ⟨rfl, rfl⟩

/-- C4 (amended): when Python `int()` cannot parse the first (at most 3)
bytes of the first chunk, `_recv_all` fails with the uncaught `ValueError`
from `_get_status` — the code has no `ProtocolError`; and a prefix that is
not a 3-digit numeric code but that `int()` accepts — shorter than 3 bytes,
whitespace-padded, signed, or with an interior underscore — is silently
coerced by `_get_status` to a number instead of being rejected. -/
theorem c4_valueerror_not_protocolerror :
    (∀ (d : Nat) (chunk : Bytes) (rest : List Ev),
      d ≤ perCallTimeout →
      DictionaryClient._get_status chunk = none →
      DictionaryClient._recv_all (⟨d, chunk⟩ :: rest) = .error .valueError) ∧
    (DictionaryClient._get_status "25".data = some 25 ∧
     DictionaryClient._get_status " 25 ok\r\n".data = some 25 ∧
     DictionaryClient._get_status "-25 ok\r\n".data = some (-25) ∧
     DictionaryClient._get_status "2_5 ok\r\n".data = some 25) := by
  constructor
  · intro d chunk rest hd hst
    simp only [DictionaryClient._recv_all]
    rw [if_neg (Nat.not_lt.mpr hd), hst]
  · exact ⟨rfl, rfl, rfl, rfl⟩

theorem c4_witness :
    (0 : Nat) ≤ perCallTimeout ∧
    DictionaryClient._get_status "abc def\r\n".data = none ∧
    DictionaryClient._recv_all [⟨0, "abc def\r\n".data⟩]
      = .error .valueError :=
  ⟨Nat.zero_le _, rfl,
    c4_valueerror_not_protocolerror.1 0 "abc def\r\n".data [] (Nat.zero_le _) rfl⟩

/-- C5: when the socket never becomes read-ready within the 5-unit wait bound
before any byte arrived — the first event's delay exceeds `perCallTimeout`,
or the script is empty — `_recv_all` fails with the no-data `TimeoutError`;
no partial accumulator is returned. -/
theorem c5_timeout_before_data :
    (∀ (d : Nat) (c : Bytes) (rest : List Ev), perCallTimeout < d →
      DictionaryClient._recv_all (⟨d, c⟩ :: rest) = .error .timeoutNoData) ∧
    DictionaryClient._recv_all [] = .error .timeoutNoData := by
  constructor
  · intro d c rest hd
    simp only [DictionaryClient._recv_all]
    rw [if_pos hd]
  · rfl

theorem c5_witness :
    perCallTimeout < 6 ∧
    DictionaryClient._recv_all [⟨6, "210 ok\r\n".data⟩] = .error .timeoutNoData :=
  ⟨by decide, c5_timeout_before_data.1 6 "210 ok\r\n".data [] (by decide)⟩

theorem recvLoop_delay_irrelevant (s : Int) :
    ∀ evs : List Ev, (∀ e ∈ evs, e.delay ≤ perCallTimeout) →
      ∀ acc : Bytes, DictionaryClient.recvLoop s acc evs
        = DictionaryClient.recvLoop s acc (evs.map fun e => ⟨0, e.chunk⟩) := by
  intro evs
  induction evs with
  | nil => intro _ _; rfl
  | cons e rest ih =>
    intro h acc
    simp only [List.map_cons, DictionaryClient.recvLoop]
    by_cases hc : DictionaryClient._response_complete acc = true
    · rw [if_pos hc, if_pos hc]
    · rw [if_neg hc, if_neg hc]
      have hde : ¬perCallTimeout < e.delay :=
        Nat.not_lt.mpr (h e (List.mem_cons_self e rest))
      rw [if_neg hde, if_neg (Nat.not_lt.mpr (Nat.zero_le perCallTimeout))]
      exact ih (fun x hx => h x (List.mem_cons_of_mem e hx)) (acc ++ e.chunk)

/-- C6: first, when a wait for the continuation of a Preliminary-status
reply times out (the next event's delay exceeds the bound), `_recv_all`
fails with the `TimeoutError` that carries the status code seen so far;
second, the wait bound is re-armed per read: whenever every single event
meets the per-call bound, the result is the same as with all delays zero, so
the aggregate delay is irrelevant and there is no whole-reply deadline. -/
theorem c6_per_wait_timeout :
    (∀ (d1 : Nat) (c1 : Bytes) (d2 : Nat) (c2 : Bytes) (rest : List Ev) (s : Int),
      d1 ≤ perCallTimeout →
      DictionaryClient._get_status c1 = some s →
      DictStatusCode.response_complete s = false →
      DictionaryClient._response_complete c1 = false →
      perCallTimeout < d2 →
      DictionaryClient._recv_all (⟨d1, c1⟩ :: ⟨d2, c2⟩ :: rest)
        = .error (.timeoutPreliminary s)) ∧
    (∀ events : List Ev, (∀ e ∈ events, e.delay ≤ perCallTimeout) →
      DictionaryClient._recv_all events
        = DictionaryClient._recv_all (events.map fun e => ⟨0, e.chunk⟩)) := by
  constructor
  · intro d1 c1 d2 c2 rest s hd1 hst hpre hinc hd2
    simp only [DictionaryClient._recv_all]
    rw [if_neg (Nat.not_lt.mpr hd1), hst]
    simp only [hpre, Bool.false_eq_true, if_false]
    simp only [DictionaryClient.recvLoop]
    rw [if_neg (by simp [hinc]), if_pos hd2]
  · intro events h
    cases events with
    | nil => rfl
    | cons e rest =>
      simp only [List.map_cons, DictionaryClient._recv_all]
      have hde : ¬perCallTimeout < e.delay :=
        Nat.not_lt.mpr (h e (List.mem_cons_self e rest))
      rw [if_neg hde, if_neg (Nat.not_lt.mpr (Nat.zero_le perCallTimeout))]
      cases hst : DictionaryClient._get_status e.chunk with
      | none => rfl
      | some s =>
        cases ht : DictStatusCode.response_complete s with
        | true => simp only [ht, if_true]
        | false =>
          simp only [ht, Bool.false_eq_true, if_false]
          exact recvLoop_delay_irrelevant s rest
            (fun x hx => h x (List.mem_cons_of_mem e hx)) e.chunk

theorem c6_witness :
    ((0 : Nat) ≤ perCallTimeout ∧
     DictionaryClient._get_status "150 x\r\n".data = some 150 ∧
     DictStatusCode.response_complete 150 = false ∧
     DictionaryClient._response_complete "150 x\r\n".data = false ∧
     perCallTimeout < 6 ∧
     DictionaryClient._recv_all [⟨0, "150 x\r\n".data⟩, ⟨6, []⟩]
       = .error (.timeoutPreliminary 150)) ∧
    ((∀ e ∈ [(⟨5, "150 x\r\n".data⟩ : Ev), ⟨5, "250 ok\r\n".data⟩],
        e.delay ≤ perCallTimeout) ∧
     DictionaryClient._recv_all [⟨5, "150 x\r\n".data⟩, ⟨5, "250 ok\r\n".data⟩]
       = DictionaryClient._recv_all [⟨0, "150 x\r\n".data⟩, ⟨0, "250 ok\r\n".data⟩]) :=
  ⟨⟨Nat.zero_le _, rfl, rfl, rfl, by decide,
    c6_per_wait_timeout.1 0 "150 x\r\n".data 6 [] [] 150 (Nat.zero_le _) rfl rfl rfl
      (by decide)⟩,
   ⟨by decide,
    c6_per_wait_timeout.2 [⟨5, "150 x\r\n".data⟩, ⟨5, "250 ok\r\n".data⟩] (by decide)⟩⟩

theorem send_client_ident_ok_iff (i : List Ev) :
    DictionaryClient._send_client_ident i = .ok () ↔
      ∃ ri, DictionaryClient._recv_all i = .ok ri ∧
        Response.status_code ri = some DictStatusCode.OK := by
  constructor
  · intro h
    simp only [DictionaryClient._send_client_ident] at h
    cases hi : DictionaryClient._recv_all i with
    | error e => rw [hi] at h; cases h
    | ok ri =>
      rw [hi] at h
      cases hs : Response.status_code ri with
      | none => simp only [hs] at h; cases h
      | some s =>
        simp only [hs] at h
        by_cases hne : s ≠ DictStatusCode.OK
        · rw [if_pos hne] at h; cases h
        · push_neg at hne
          exact ⟨ri, rfl, hne ▸ hs⟩
  · rintro ⟨ri, hi, hs⟩
    simp only [DictionaryClient._send_client_ident]
    rw [hi]
    simp only [hs]
    rw [if_neg (by simp)]

/-- C7: session construction reaches Ready (i.e. `_connect` returns `.ok`)
exactly when the greeting reply parses with status `CONNECTION_ACCEPTED`
(220) and the identification acknowledgement parses with status `OK` (250);
and a greeting carrying any other status code fails construction with the
exception that carries that code, so the session is never Ready. -/
theorem c7_handshake :
    (∀ g i : List Ev,
      (∃ info, DictionaryClient._connect g i = .ok info) ↔
        ((∃ rg, DictionaryClient._recv_all g = .ok rg ∧
            Response.status_code rg = some DictStatusCode.CONNECTION_ACCEPTED) ∧
         (∃ ri, DictionaryClient._recv_all i = .ok ri ∧
            Response.status_code ri = some DictStatusCode.OK))) ∧
    (∀ (g i : List Ev) (rg : Bytes) (s : Int),
      DictionaryClient._recv_all g = .ok rg →
      Response.status_code rg = some s →
      s ≠ DictStatusCode.CONNECTION_ACCEPTED →
      DictionaryClient._connect g i = .error (.unexpectedStatus s)) := by
  constructor
  · intro g i
    constructor
    · rintro ⟨info, h⟩
      simp only [DictionaryClient._connect] at h
      cases hg : DictionaryClient._recv_all g with
      | error e => rw [hg] at h; cases h
      | ok rg =>
        rw [hg] at h
        cases hs : Response.status_code rg with
        | none => simp only [hs] at h; cases h
        | some s =>
          simp only [hs] at h
          by_cases hne : s ≠ DictStatusCode.CONNECTION_ACCEPTED
          · rw [if_pos hne] at h; cases h
          · push_neg at hne
            rw [if_neg (by simp [hne])] at h
            cases hid : DictionaryClient._send_client_ident i with
            | error e => rw [hid] at h; cases h
            | ok u =>
              refine ⟨⟨rg, rfl, hne ▸ hs⟩, ?_⟩
              exact (send_client_ident_ok_iff i).mp hid
    · rintro ⟨⟨rg, hg, hsg⟩, hid⟩
      refine ⟨rg, ?_⟩
      simp only [DictionaryClient._connect]
      rw [hg]
      simp only [hsg]
      rw [if_neg (by simp)]
      rw [(send_client_ident_ok_iff i).mpr hid]
  · intro g i rg s hg hs hne
    simp only [DictionaryClient._connect]
    rw [hg]
    simp only [hs]
    rw [if_pos hne]

theorem c7_witness :
    (∃ info, DictionaryClient._connect
        [⟨0, "220 dictd hello\r\n".data⟩] [⟨0, "250 ok\r\n".data⟩] = .ok info) ∧
    DictionaryClient._recv_all [⟨0, "420 busy\r\n".data⟩] = .ok "420 busy\r\n".data ∧
    Response.status_code "420 busy\r\n".data = some 420 ∧
    (420 : Int) ≠ DictStatusCode.CONNECTION_ACCEPTED ∧
    DictionaryClient._connect [⟨0, "420 busy\r\n".data⟩] [⟨0, "250 ok\r\n".data⟩]
      = .error (.unexpectedStatus 420) :=
  ⟨(c7_handshake.1 [⟨0, "220 dictd hello\r\n".data⟩] [⟨0, "250 ok\r\n".data⟩]).mpr
      ⟨⟨"220 dictd hello\r\n".data, rfl, rfl⟩, ⟨"250 ok\r\n".data, rfl, rfl⟩⟩,
   rfl, rfl, by decide,
   c7_handshake.2 [⟨0, "420 busy\r\n".data⟩] [⟨0, "250 ok\r\n".data⟩]
     "420 busy\r\n".data 420 rfl rfl (by decide)⟩

/-- C8: when the reply to QUIT parses with the `CLOSING_CONNECTION` status
(221), `disconnect` returns without error and `sock.close()` has run; for
any other status it raises `ConnectionError` carrying the reply (and control
leaves before `sock.close()`, the failed session being unusable per the
session state machine). -/
theorem c8_disconnect (ev : List Ev) (raw : Bytes) (s : Int)
    (hr : DictionaryClient._recv_all ev = .ok raw)
    (hs : DictionaryClient._get_status raw = some s) :
    (s = DictStatusCode.CLOSING_CONNECTION →
      DictionaryClient.disconnect ev = (.ok (), true)) ∧
    (s ≠ DictStatusCode.CLOSING_CONNECTION →
      DictionaryClient.disconnect ev = (.error (.connectionError raw), false)) := by
  constructor
  · intro heq
    simp only [DictionaryClient.disconnect]
    rw [hr]
    simp only [hs]
    rw [if_neg (by simp [heq])]
  · intro hne
    simp only [DictionaryClient.disconnect]
    rw [hr]
    simp only [hs]
    rw [if_pos hne]

theorem c8_witness :
    (DictionaryClient._recv_all [⟨0, "221 bye\r\n".data⟩] = .ok "221 bye\r\n".data ∧
     DictionaryClient._get_status "221 bye\r\n".data = some 221 ∧
     DictionaryClient.disconnect [⟨0, "221 bye\r\n".data⟩] = (.ok (), true)) ∧
    (DictionaryClient._recv_all [⟨0, "500 huh\r\n".data⟩] = .ok "500 huh\r\n".data ∧
     DictionaryClient._get_status "500 huh\r\n".data = some 500 ∧
     DictionaryClient.disconnect [⟨0, "500 huh\r\n".data⟩]
       = (.error (.connectionError "500 huh\r\n".data), false)) :=
  ⟨⟨rfl, rfl, (c8_disconnect [⟨0, "221 bye\r\n".data⟩] "221 bye\r\n".data 221
      rfl rfl).1 rfl⟩,
   ⟨rfl, rfl, (c8_disconnect [⟨0, "500 huh\r\n".data⟩] "500 huh\r\n".data 500
      rfl rfl).2 (by decide)⟩⟩

/-- C9 counterexample: when the server-property content parses as empty
(falsy), the `if not getattr(obj, private_name, None)` guard treats the
cached value as absent, so two successive accesses each send a request: the
lookup is not computed at most once per session. -/
theorem c9_counterexample :
    totalRequests Strategies.get none [[], []] = 2 ∧
    totalRequests Databases.get none [[], []] = 2 := ⟨rfl, rfl⟩

theorem descriptor_cached_no_requests (c : Content)
    (hc : pyFalsy (some c) = false) :
    ∀ rs : List Content,
      totalRequests Strategies.get (some c) rs = 0 ∧
      accessTrace Strategies.get (some c) rs = rs.map fun _ => c := by
  intro rs
  induction rs with
  | nil => exact ⟨rfl, rfl⟩
  | cons r rest ih =>
    simp only [totalRequests, accessTrace, Strategies.get, hc, Bool.false_eq_true,
      if_false, Option.getD_some, List.map_cons]
    exact ⟨by rw [ih.1], by rw [ih.2]⟩

/-- C9 (amended): provided the first fetched content is non-empty (truthy),
the lookup is computed exactly once: the first access sends one request and
caches the content, and every later access returns the cached value with no
further request; an empty (falsy) content is re-fetched on every access. -/
theorem c9_nonempty_content_memoized (first : Content) (rest : List Content)
    (h : first ≠ []) :
    (totalRequests Strategies.get none (first :: rest) = 1 ∧
     accessTrace Strategies.get none (first :: rest)
       = first :: rest.map fun _ => first) ∧
    (totalRequests Databases.get none (first :: rest) = 1 ∧
     accessTrace Databases.get none (first :: rest)
       = first :: rest.map fun _ => first) := by
  have hfal : pyFalsy (some first) = false := by
    cases first with
    | nil => exact absurd rfl h
    | cons a as => rfl
  have hstrat : totalRequests Strategies.get none (first :: rest) = 1 ∧
      accessTrace Strategies.get none (first :: rest)
        = first :: rest.map fun _ => first := by
    constructor
    · show 1 + totalRequests Strategies.get (some first) rest = 1
      rw [(descriptor_cached_no_requests first hfal rest).1]
    · show first :: accessTrace Strategies.get (some first) rest
        = first :: rest.map fun _ => first
      rw [(descriptor_cached_no_requests first hfal rest).2]
  exact ⟨hstrat, by rw [show Databases.get = Strategies.get from rfl]; exact hstrat⟩

theorem c9_witness :
    ([["eng".data]] : List Content) ≠ [] ∧
    ((["eng".data] : Content) ≠ [] ∧
     totalRequests Strategies.get none [["eng".data], [], ["fra".data]] = 1 ∧
     accessTrace Strategies.get none [["eng".data], [], ["fra".data]]
       = [["eng".data], ["eng".data], ["eng".data]] ∧
     totalRequests Databases.get none [["eng".data], [], ["fra".data]] = 1) :=
  ⟨by decide,
   by
    have hne : (["eng".data] : Content) ≠ [] := by decide
    have h := c9_nonempty_content_memoized ["eng".data] [[], ["fra".data]] hne
    exact ⟨hne, h.1.1, h.1.2, h.2.1⟩⟩

/-- C10: assigning to or deleting the class-descriptor attributes
`databases` and `strategies` on a `DictionaryClient` instance raises the
`AttributeError` whose message names the attribute and calls it read-only,
for every instance dict and every assigned value; writing the derived
private name (`_databases`, `_strategies`), which is what the lazy accessor
does to populate the cache, succeeds. -/
theorem c10_read_only_attributes (α : Type) (dict : List (Bytes × α)) (v : α) :
    (setattrClient α dict "databases".data v
        = .error (raise_read_only "DictionaryClient".data "databases".data) ∧
     setattrClient α dict "strategies".data v
        = .error (raise_read_only "DictionaryClient".data "strategies".data) ∧
     delattrClient α dict "databases".data
        = .error (raise_read_only "DictionaryClient".data "databases".data) ∧
     delattrClient α dict "strategies".data
        = .error (raise_read_only "DictionaryClient".data "strategies".data)) ∧
    (containsSub "databases".data
        (raise_read_only "DictionaryClient".data "databases".data) = true ∧
     containsSub "read-only".data
        (raise_read_only "DictionaryClient".data "databases".data) = true ∧
     containsSub "strategies".data
        (raise_read_only "DictionaryClient".data "strategies".data) = true ∧
     containsSub "read-only".data
        (raise_read_only "DictionaryClient".data "strategies".data) = true) ∧
    (setattrClient α dict (set_name "databases".data).2 v
        = .ok (((set_name "databases".data).2, v) :: dict) ∧
     setattrClient α dict (set_name "strategies".data).2 v
        = .ok (((set_name "strategies".data).2, v) :: dict)) :=
  ⟨⟨rfl, rfl, rfl, rfl⟩,
   ⟨by decide, by decide, by decide, by decide⟩,
   ⟨rfl, rfl⟩⟩

end DictClient
